import Mathlib

/-!
Verification of the `api-detector` repository: a shallow embedding of its
retrieval layer (`app/services/detector_service.py`, `app/services/github_service.py`,
`app/services/git_providers/*.py`) and of its detection engine
(`app/services/detectors/*.py`), together with theorems settling the frozen
claims about the natural-language specification.

Conventions of the embedding:
* File contents are `List Char`; helper `chars` converts from string literals.
* Python `re` patterns are embedded as executable matchers (`Prs`), one per
  compiled pattern of the source, reproducing the leftmost, non-overlapping
  `finditer` scan.  For the patterns that occur in the source, greedy
  character-class repetition followed by a disjoint delimiter is equivalent to
  maximal munch, and no two alternatives of an alternation can match at the
  same position, so the committed-choice matchers below compute exactly the
  Python match results.  The one pattern needing genuine backtracking
  (the GraphQL field pattern's optional parenthesis group) is implemented with
  explicit backtracking.
* External effects (HTTP requests, `yaml.safe_load`/`json.load`, the archive
  download) are oracles passed in as parameters; the nondeterministic `uuid`
  identifiers and `detected_at` timestamps of the pydantic models are omitted
  from the records, and the Python `set` of socket.io events is modelled as a
  first-occurrence deduplicated list.
* Python exceptions are `Except String`; a caught exception is a matched
  `.error`.
-/

namespace AD

/-- A literal `{` character, `Char.ofNat 123`. -/
def lbrace : Char := Char.ofNat 123

/-- A literal `}` character, `Char.ofNat 125`. -/
def rbrace : Char := Char.ofNat 125

/-- Single quote character. -/
def sq : Char := '\''

/-- Double quote character. -/
def dq : Char := '"'

/-- The characters of a string literal. -/
def chars (s : String) : List Char := s.data

/-- Python `\s` (ASCII range, as used by the source's patterns). -/
def isWs (c : Char) : Bool :=
  c = ' ' || c = '\t' || c = '\n' || c = '\x0d' || c = '\x0c' || c = '\x0b'

/-- Python `[A-Za-z0-9_]` (`\w`, ASCII). -/
def isWord (c : Char) : Bool :=
  ('a' ≤ c && c ≤ 'z') || ('A' ≤ c && c ≤ 'Z') || ('0' ≤ c && c ≤ '9') || c = '_'

/-- Python `[A-Za-z0-9_\.]` (dotted identifier characters of the gRPC patterns). -/
def isDottedWord (c : Char) : Bool := isWord c || c = '.'

/-- Python `[A-Z]`. -/
def isUpperAZ (c : Char) : Bool := 'A' ≤ c && c ≤ 'Z'

/-- Python `[A-Za-z0-9_\[\]!]` (GraphQL return-type characters). -/
def isGqlTypeChar (c : Char) : Bool := isWord c || c = '[' || c = ']' || c = '!'

/-- `w` is a prefix of `s` (character-list comparison). -/
def leadsWith : List Char → List Char → Bool
  | [], _ => true
  | _ :: _, [] => false
  | a :: as, b :: bs => a = b && leadsWith as bs

/-- Python `pat in s` on strings: substring occurrence test. -/
def containsSub (s pat : List Char) : Bool :=
  (List.range (s.length + 1)).any (fun i => leadsWith pat (s.drop i))

/-- Number of newline characters strictly before position `pos`;
source `BaseDetector._get_line_number` computes `content[:match_start].count('\n') + 1`. -/
def countNl (s : List Char) (pos : Nat) : Nat :=
  (s.take pos).count '\n'

/-- Python slice index resolution for `s[a:b]` on a sequence of length `n`:
negative indices count from the end, then both are clamped to `[0, n]`. -/
def pyIdx (n : Nat) (i : Int) : Nat :=
  if i < 0 then (max 0 ((n : Int) + i)).toNat else min i.toNat n

/-- Python slice `s[a:b]` (with possibly negative bounds), as used by the
gRPC streaming window `service_block[method_match.start()-10:method_match.end()+10]`. -/
def pySlice (s : List Char) (a b : Int) : List Char :=
  ((s.take (pyIdx s.length b)).drop (pyIdx s.length a))

/-- Python `str.strip()` (whitespace from both ends). -/
def pyStrip (s : List Char) : List Char :=
  ((s.dropWhile isWs).reverse.dropWhile isWs).reverse

/-- Python `str.split('\n')`: splitting on newline, empty string giving `[""]`. -/
def splitNl (s : List Char) : List (List Char) :=
  let rec go : List Char → List Char → List (List Char)
    | [], acc => [acc.reverse]
    | c :: t, acc => if c = '\n' then acc.reverse :: go t [] else go t (c :: acc)
  go s []

/-- Python `str.replace(old, new)` with `new = ""`: delete every occurrence of `old`. -/
def removeAll (old : List Char) : List Char → List Char
  | [] => []
  | c :: t =>
    if leadsWith old (c :: t) && old ≠ [] then removeAll old ((c :: t).drop old.length)
    else c :: removeAll old t
termination_by s => s.length
decreasing_by
  · simp only [List.length_drop, List.length_cons]
    have : old.length ≠ 0 := by
      intro h; exact absurd (List.length_eq_zero.mp h) (by simp_all)
    omega
  · simp

/-- `pathlib` `PurePath.stem` of a file name: `name[:i]` for `i = name.rfind('.')`
when `0 < i < len(name) - 1`, otherwise the whole name. -/
def pyStem (name : List Char) : List Char :=
  match (List.range name.length).filter (fun i => name.get? i = some '.') |>.reverse with
  | [] => name
  | i :: _ => if 0 < i ∧ i < name.length - 1 then name.take i else name

/-- `pathlib` `PurePath.suffix` of a file name: `name[i:]` for `i = name.rfind('.')`
when `0 < i < len(name) - 1`, otherwise `""`. -/
def pySuffix (name : List Char) : List Char :=
  match (List.range name.length).filter (fun i => name.get? i = some '.') |>.reverse with
  | [] => []
  | i :: _ => if 0 < i ∧ i < name.length - 1 then name.drop i else []

/-! ### Pattern matchers

`Prs α` matches a pattern at the head of the input, returning the payload and
the unconsumed remainder.  `findIter` reproduces `re.finditer`: leftmost
matches, scanning resumes at each match end. -/

def Prs (α : Type) : Type := List Char → Option (α × List Char)

instance : Monad Prs where
  pure a := fun s => some (a, s)
  bind p f := fun s =>
    match p s with
    | some (a, rest) => f a rest
    | none => none

/-- Match one character satisfying `f`. -/
def pCharF (f : Char → Bool) : Prs Char := fun s =>
  match s with
  | [] => none
  | c :: t => if f c then some (c, t) else none

/-- Match the literal character list `w`. -/
def pLit (w : List Char) : Prs Unit := fun s =>
  if leadsWith w s then some ((), s.drop w.length) else none

/-- First alternative of `ws` that matches (the source's alternations are
prefix-free at any given position, so this equals Python's ordered alternation). -/
def pAlts : List (List Char) → Prs (List Char)
  | [] => fun _ => none
  | w :: ws => fun s =>
    match pLit w s with
    | some (_, rest) => some (w, rest)
    | none => pAlts ws s

/-- Greedy `f*`. -/
def pMany (f : Char → Bool) : Prs (List Char) := fun s =>
  some (s.takeWhile f, s.dropWhile f)

/-- Greedy `f+` (fails on the empty match). -/
def pMany1 (f : Char → Bool) : Prs (List Char) := fun s =>
  let pre := s.takeWhile f
  if pre = [] then none else some (pre, s.dropWhile f)

/-- `p?`: optional group (the source's optional groups sit at pattern end,
where committed choice equals Python's backtracking). -/
def pOpt (p : Prs α) : Prs (Option α) := fun s =>
  match p s with
  | some (a, rest) => some (some a, rest)
  | none => some (none, s)

/-- A quote character, `['"]` (opening and closing quotes matched independently,
exactly as in the source patterns). -/
def pQuote : Prs Char := pCharF (fun c => c = sq || c = dq)

/-- Lazy `.*?` up to (and consuming) the first occurrence of `c` (DOTALL);
fails when `c` is absent. -/
def pUntil (c : Char) : Prs (List Char) := fun s =>
  let pre := s.takeWhile (· ≠ c)
  let rest := s.dropWhile (· ≠ c)
  match rest with
  | [] => none
  | _ :: t => some (pre, t)

/-- `re.finditer` over `s`: scan positions left to right, emit
`(start, end, payload)` per match, resume at each match end. -/
def scanAux (m : Prs α) : List Char → Nat → Nat → List (Nat × Nat × α)
  | _, _, 0 => []
  | suf, pos, fuel + 1 =>
    match m suf with
    | some (a, rest) =>
      let used := suf.length - rest.length
      (pos, pos + used, a) :: scanAux m rest (pos + used) fuel
    | none =>
      match suf with
      | [] => []
      | _ :: t => scanAux m t (pos + 1) fuel

def findIter (m : Prs α) (s : List Char) : List (Nat × Nat × α) :=
  scanAux m s 0 (s.length + 1)

/-! ### gRPC detector (`app/services/detectors/grpc_detector.py`) -/

/-- Pattern `service\s+(?P<service>[A-Za-z0-9_]+)\s*{`. -/
def grpcServiceM : Prs (List Char) := do
  _ ← pLit (chars "service")
  _ ← pMany1 isWs
  let nm ← pMany1 isWord
  _ ← pMany isWs
  _ ← pCharF (· = lbrace)
  pure nm

/-- Pattern `rpc\s+(?P<method>\w+)\s*\(\s*([\w\.]+)\s*\)\s*returns\s*\(\s*([\w\.]+)\s*\)`. -/
def grpcMethodM : Prs (List Char × List Char × List Char) := do
  _ ← pLit (chars "rpc")
  _ ← pMany1 isWs
  let nm ← pMany1 isWord
  _ ← pMany isWs
  _ ← pLit (chars "(")
  _ ← pMany isWs
  let inp ← pMany1 isDottedWord
  _ ← pMany isWs
  _ ← pLit (chars ")")
  _ ← pMany isWs
  _ ← pLit (chars "returns")
  _ ← pMany isWs
  _ ← pLit (chars "(")
  _ ← pMany isWs
  let out ← pMany1 isDottedWord
  _ ← pMany isWs
  _ ← pLit (chars ")")
  pure (nm, inp, out)

/-- Pattern `message\s+([A-Za-z0-9_]+)\s*{`. -/
def grpcMessageM : Prs (List Char) := do
  _ ← pLit (chars "message")
  _ ← pMany1 isWs
  let nm ← pMany1 isWord
  _ ← pMany isWs
  _ ← pCharF (· = lbrace)
  pure nm

/-- The source's brace scan over `service_content`: `brace_count` starts at 0,
`{` increments, `}` decrements and, when the count reaches 0, the block ends at
`i + 1`; absent that, the block is the whole remainder. -/
def braceScan : List Char → Int → Nat → Option Nat
  | [], _, _ => none
  | c :: t, cnt, i =>
    if c = lbrace then braceScan t (cnt + 1) (i + 1)
    else if c = rbrace then
      if cnt - 1 = 0 then some (i + 1) else braceScan t (cnt - 1) (i + 1)
    else braceScan t cnt (i + 1)

structure GRPCMethodR where
  name : String
  input_type : String
  output_type : String
  streaming : Bool
  deriving Repr, DecidableEq

structure GRPCServiceR where
  name : String
  service_name : String
  methods : List GRPCMethodR
  message_types : List String
  source_file : String
  source_line : Nat
  deriving Repr, DecidableEq

/-- `GRPCDetector.detect`: one record per `service NAME {` match; the block is
delimited by the brace scan; methods come from the method pattern within the
block, with `streaming` set iff the literal `stream` occurs in the ±10-character
window around the method match; message type names are collected file-wide. -/
def grpcDetect (content : List Char) (fileRel : String) : List GRPCServiceR :=
  (findIter grpcServiceM content).map (fun m =>
    let serviceStart := m.1
    let serviceContent := content.drop serviceStart
    let serviceEnd := (braceScan serviceContent 0 0).getD serviceContent.length
    let serviceBlock := serviceContent.take serviceEnd
    let methods := (findIter grpcMethodM serviceBlock).map (fun mm =>
      let window := pySlice serviceBlock ((mm.1 : Int) - 10) ((mm.2.1 : Int) + 10)
      { name := String.mk mm.2.2.1
        input_type := String.mk mm.2.2.2.1
        output_type := String.mk mm.2.2.2.2
        streaming := containsSub window (chars "stream") : GRPCMethodR })
    let msgs := (findIter grpcMessageM content).map (fun mm => String.mk mm.2.2)
    { name := String.mk m.2.2
      service_name := String.mk m.2.2
      methods := methods
      message_types := msgs
      source_file := fileRel
      source_line := countNl content serviceStart + 1 })

/-! ### REST detector (`app/services/detectors/rest_detector.py`) -/

/-- Uppercasing, Python `str.upper()` (ASCII inputs in the source). -/
def upper (s : List Char) : List Char := s.map Char.toUpper

/-- Neither quote character, the class `[^'"]`. -/
def notQuote (c : Char) : Bool := !(c = sq || c = dq)

/-- The `HttpMethod` enumeration of `app/models/api.py`. -/
inductive HttpMethod where
  | GET | POST | PUT | DELETE | PATCH | OPTIONS | HEAD
  deriving Repr, DecidableEq

/-- The `HttpMethod(value)` constructor: a `ValueError` for any other string. -/
def pyHttpMethod (s : List Char) : Except String HttpMethod :=
  if s = chars "GET" then .ok .GET
  else if s = chars "POST" then .ok .POST
  else if s = chars "PUT" then .ok .PUT
  else if s = chars "DELETE" then .ok .DELETE
  else if s = chars "PATCH" then .ok .PATCH
  else if s = chars "OPTIONS" then .ok .OPTIONS
  else if s = chars "HEAD" then .ok .HEAD
  else .error ("invalid HttpMethod: " ++ String.mk s)

structure RESTEndpoint where
  name : String
  path : String
  method : HttpMethod
  source_file : String
  source_line : Nat
  deriving Repr, DecidableEq

/-- Pattern `@(app|router|blueprint)\.(?P<method>get|post|put|delete|patch|options|head)\s*\(\s*['"](?P<path>[^'"]+)['"]`. -/
def fastapiM : Prs (List Char × List Char) := do
  _ ← pLit (chars "@")
  _ ← pAlts [chars "app", chars "router", chars "blueprint"]
  _ ← pLit (chars ".")
  let m ← pAlts [chars "get", chars "post", chars "put", chars "delete", chars "patch",
                 chars "options", chars "head"]
  _ ← pMany isWs
  _ ← pLit (chars "(")
  _ ← pMany isWs
  _ ← pQuote
  let p ← pMany1 notQuote
  _ ← pQuote
  pure (m, p)

/-- Pattern `@(app|blueprint)\.route\s*\(\s*['"](?P<path>[^'"]+)['"](\s*,\s*methods=\[(?P<methods>[^\]]+)\])?`. -/
def flaskM : Prs (List Char × Option (List Char)) := do
  _ ← pLit (chars "@")
  _ ← pAlts [chars "app", chars "blueprint"]
  _ ← pLit (chars ".route")
  _ ← pMany isWs
  _ ← pLit (chars "(")
  _ ← pMany isWs
  _ ← pQuote
  let p ← pMany1 notQuote
  _ ← pQuote
  let ms ← pOpt (do
    _ ← pMany isWs
    _ ← pLit (chars ",")
    _ ← pMany isWs
    _ ← pLit (chars "methods=[")
    let l ← pMany1 (fun c => c ≠ ']')
    _ ← pLit (chars "]")
    pure l)
  pure (p, ms)

/-- Pattern `(app|router)\.(get|post|put|delete|patch|options|all)\s*\(\s*['"](?P<path>[^'"]+)['"]`. -/
def expressM : Prs (List Char × List Char) := do
  _ ← pAlts [chars "app", chars "router"]
  _ ← pLit (chars ".")
  let v ← pAlts [chars "get", chars "post", chars "put", chars "delete", chars "patch",
                 chars "options", chars "all"]
  _ ← pMany isWs
  _ ← pLit (chars "(")
  _ ← pMany isWs
  _ ← pQuote
  let p ← pMany1 notQuote
  _ ← pQuote
  pure (v, p)

/-- Pattern `@(GetMapping|PostMapping|PutMapping|DeleteMapping|RequestMapping)(\s*\(\s*['"](?P<path>[^'"]+)['"])?`. -/
def springM : Prs (List Char × Option (List Char)) := do
  _ ← pLit (chars "@")
  let mt ← pAlts [chars "GetMapping", chars "PostMapping", chars "PutMapping",
                  chars "DeleteMapping", chars "RequestMapping"]
  let p ← pOpt (do
    _ ← pMany isWs
    _ ← pLit (chars "(")
    _ ← pMany isWs
    _ ← pQuote
    let pp ← pMany1 notQuote
    _ ← pQuote
    pure pp)
  pure (mt, p)

/-- Pattern `['"]([A-Z]+)['"]`, the `re.findall` of the flask method list. -/
def quotedUpperM : Prs (List Char) := do
  _ ← pQuote
  let m ← pMany1 isUpperAZ
  _ ← pQuote
  pure m

/-- 1-indexed line of a match start (`BaseDetector._get_line_number`). -/
def lineOf (content : List Char) (st : Nat) : Nat := countNl content st + 1

/-- One endpoint from a FastAPI-style decorator match. -/
def fastapiEndpoint (content : List Char) (fileRel : String) (st : Nat)
    (g : List Char × List Char) : Except String RESTEndpoint := do
  let mu := upper g.1
  let m ← pyHttpMethod mu
  pure { name := String.mk (mu ++ chars " " ++ g.2), path := String.mk g.2, method := m,
         source_file := fileRel, source_line := lineOf content st }

/-- Resolved method list of one Flask-style route match: an absent method list
defaults to `["GET"]`, otherwise the `['"]([A-Z]+)['"]` findall over it. -/
def flaskMethodsOf : Option (List Char) → List (List Char)
  | none => [chars "GET"]
  | some ms => (findIter quotedUpperM ms).map (fun t => t.2.2)

/-- The endpoints emitted for one Flask-style route match: one per resolved
method, each carrying the match's path and line. -/
def flaskEndpointsOfMatch (content : List Char) (fileRel : String) (st : Nat)
    (path : List Char) (methodsStr : Option (List Char)) : Except String (List RESTEndpoint) :=
  (flaskMethodsOf methodsStr).mapM (fun ms => do
    let m ← pyHttpMethod (upper ms)
    pure { name := String.mk (ms ++ chars " " ++ path), path := String.mk path, method := m,
           source_file := fileRel, source_line := lineOf content st })

/-- One endpoint from an Express-style call match; the `all` verb is emitted as
`GET` (`HttpMethod(method.upper() if method != 'ALL' else 'GET')`), while the
`name` keeps the raw uppercased verb. -/
def expressEndpoint (content : List Char) (fileRel : String) (st : Nat)
    (g : List Char × List Char) : Except String RESTEndpoint := do
  let mu := upper g.1
  let m ← pyHttpMethod (if mu ≠ chars "ALL" then mu else chars "GET")
  pure { name := String.mk (mu ++ chars " " ++ g.2), path := String.mk g.2, method := m,
         source_file := fileRel, source_line := lineOf content st }

/-- `method_map.get(mapping_type, 'GET')` of the Spring branch. -/
def springMethodMap (mt : List Char) : List Char :=
  if mt = chars "GetMapping" then chars "GET"
  else if mt = chars "PostMapping" then chars "POST"
  else if mt = chars "PutMapping" then chars "PUT"
  else if mt = chars "DeleteMapping" then chars "DELETE"
  else chars "GET"

/-- One endpoint from a Spring-style annotation match (`path or ''`). -/
def springEndpoint (content : List Char) (fileRel : String) (st : Nat)
    (g : List Char × Option (List Char)) : Except String RESTEndpoint := do
  let meth := springMethodMap g.1
  let path := g.2.getD []
  let m ← pyHttpMethod meth
  pure { name := String.mk (meth ++ chars " " ++ path), path := String.mk path, method := m,
         source_file := fileRel, source_line := lineOf content st }

/-- `RESTDetector.detect`: the four pattern scans in source order, results
concatenated; a `ValueError` from `HttpMethod` aborts the whole call. -/
def restDetect (content : List Char) (fileRel : String) : Except String (List RESTEndpoint) := do
  let fa ← (findIter fastapiM content).mapM (fun t => fastapiEndpoint content fileRel t.1 t.2.2)
  let fl ← (findIter flaskM content).mapM (fun t =>
    flaskEndpointsOfMatch content fileRel t.1 t.2.2.1 t.2.2.2)
  let ex ← (findIter expressM content).mapM (fun t => expressEndpoint content fileRel t.1 t.2.2)
  let sp ← (findIter springM content).mapM (fun t => springEndpoint content fileRel t.1 t.2.2)
  pure (fa ++ fl.flatten ++ ex ++ sp)

/-! ### WebSocket detector (`app/services/detectors/websocket_detector.py`) -/

/-- Pattern `@(app|router)\.websocket\s*\(\s*['"](?P<path>[^'"]+)['"]`. -/
def wsRouteM : Prs (List Char) := do
  _ ← pLit (chars "@")
  _ ← pAlts [chars "app", chars "router"]
  _ ← pLit (chars ".websocket")
  _ ← pMany isWs
  _ ← pLit (chars "(")
  _ ← pMany isWs
  _ ← pQuote
  let p ← pMany1 notQuote
  _ ← pQuote
  pure p

/-- Pattern `@?socketio\.(on|event)\s*\(\s*['"](?P<event>[^'"]+)['"]`. -/
def socketioM : Prs (List Char) := do
  _ ← pOpt (pLit (chars "@"))
  _ ← pLit (chars "socketio.")
  _ ← pAlts [chars "on", chars "event"]
  _ ← pMany isWs
  _ ← pLit (chars "(")
  _ ← pMany isWs
  _ ← pQuote
  let e ← pMany1 notQuote
  _ ← pQuote
  pure e

structure WebSocketAPIR where
  name : String
  endpoint : String
  events : List String
  source_file : String
  source_line : Nat
  deriving Repr, DecidableEq

/-- First-occurrence deduplication (the model of the Python `set` of events). -/
def dedupFirst : List (List Char) → List (List Char) → List (List Char)
  | [], _ => []
  | e :: t, seen => if seen.contains e then dedupFirst t seen else e :: dedupFirst t (e :: seen)

/-- `WebSocketDetector.detect`: one endpoint per websocket-route match, then,
when any socket.io events were found, one synthetic `/socket.io` endpoint at
line 1 carrying the distinct event names. -/
def wsDetect (content : List Char) (fileStem fileRel : String) : List WebSocketAPIR :=
  let routes := (findIter wsRouteM content).map (fun t =>
    { name := String.mk (chars "WebSocket " ++ t.2.2), endpoint := String.mk t.2.2,
      events := [], source_file := fileRel, source_line := lineOf content t.1 : WebSocketAPIR })
  let evs := dedupFirst ((findIter socketioM content).map (fun t => t.2.2)) []
  let sio : List WebSocketAPIR :=
    if evs.isEmpty then [] else
      [{ name := "SocketIO " ++ fileStem, endpoint := "/socket.io",
         events := evs.map String.mk, source_file := fileRel, source_line := 1 }]
  routes ++ sio

/-! ### GraphQL detector (`app/services/detectors/graphql_detector.py`) -/

/-- Pattern `type\s+(?P<type>[A-Za-z0-9_]+)`. -/
def gqlTypeM : Prs (List Char) := do
  _ ← pLit (chars "type")
  _ ← pMany1 isWs
  pMany1 isWord

/-- Pattern `extend type Query {(?P<queries>.*?)}` (DOTALL, lazy). -/
def gqlQueryM : Prs (List Char) := do
  _ ← pLit (chars "extend type Query " ++ [lbrace])
  pUntil rbrace

/-- Pattern `extend type Mutation {(?P<mutations>.*?)}` (DOTALL, lazy). -/
def gqlMutationM : Prs (List Char) := do
  _ ← pLit (chars "extend type Mutation " ++ [lbrace])
  pUntil rbrace

/-- Tail of the field pattern, `\s*:\s*([A-Za-z0-9_\[\]!]+)`. -/
def gqlSuffixMatch (rest : List Char) : Option (List Char) :=
  let r1 := rest.dropWhile isWs
  match r1 with
  | ':' :: r2 =>
    let ty := (r2.dropWhile isWs).takeWhile isGqlTypeChar
    if ty = [] then none else some ty
  | _ => none

/-- `re.match(r'([A-Za-z0-9_]+)(?:\(.*\))?\s*:\s*([A-Za-z0-9_\[\]!]+)', line)`:
maximal name, then the greedy optional parenthesis group with backtracking over
close-paren positions (longest first), then the tail. -/
def gqlFieldMatch (line : List Char) : Option (List Char × List Char) :=
  let nm := line.takeWhile isWord
  if nm = [] then none else
  let rest := line.drop nm.length
  match rest with
  | '(' :: t =>
    let closes := ((List.range t.length).filter (fun i => t.get? i = some ')')).reverse
    match closes.filterMap (fun i => gqlSuffixMatch (t.drop (i + 1))) with
    | ty :: _ => some (nm, ty)
    | [] => (gqlSuffixMatch rest).map (fun ty => (nm, ty))
  | _ => (gqlSuffixMatch rest).map (fun ty => (nm, ty))

structure GQLField where
  name : String
  return_type : String
  deriving Repr, DecidableEq

structure GraphQLAPIR where
  name : String
  types : List String
  queries : List GQLField
  mutations : List GQLField
  source_file : String
  source_line : Nat
  deriving Repr, DecidableEq

def gqlReserved : List (List Char) := [chars "Query", chars "Mutation", chars "Subscription"]

/-- Per-line field extraction over a captured block:
`block.strip().split('\n')`, each line stripped, empty and `#`-prefixed lines
skipped, the rest matched against the field pattern. -/
def gqlFieldsOfBlock (block : List Char) : List GQLField :=
  (splitNl (pyStrip block)).filterMap (fun ln =>
    let l := pyStrip ln
    if l.isEmpty then none
    else if leadsWith (chars "#") l then none
    else (gqlFieldMatch l).map (fun g =>
      { name := String.mk g.1, return_type := String.mk g.2 : GQLField }))

/-- `GraphQLDetector.detect`: type names outside the reserved roots, fields of
the `extend type Query/Mutation` blocks; a document only when something was found. -/
def gqlDetect (content : List Char) (fileStem fileRel : String) : List GraphQLAPIR :=
  let types := (findIter gqlTypeM content).filterMap (fun t =>
    if gqlReserved.contains t.2.2 then none else some (String.mk t.2.2))
  let queries := ((findIter gqlQueryM content).map (fun t => gqlFieldsOfBlock t.2.2)).flatten
  let mutations := ((findIter gqlMutationM content).map (fun t => gqlFieldsOfBlock t.2.2)).flatten
  if types.isEmpty && queries.isEmpty && mutations.isEmpty then []
  else [{ name := "GraphQL " ++ fileStem, types := types, queries := queries,
          mutations := mutations, source_file := fileRel, source_line := 1 }]

/-! ### OpenAPI detector (`app/services/detectors/openapi_detector.py`)

`yaml.safe_load` / `json.load` are external libraries, modelled as oracles in
`ParseEnv` producing a `YVal` (string, mapping, null, or some other scalar). -/

inductive YVal where
  | str (s : String)
  | map (kvs : List (String × YVal))
  | nullv
  | other

/-- Mapping lookup (`content.get(key)` on a parsed document). -/
def yLookup (kvs : List (String × YVal)) (k : String) : Option YVal :=
  (kvs.find? (fun p => p.1 == k)).map (fun p => p.2)

/-- `key in content` for a parsed mapping. -/
def hasKey (kvs : List (String × YVal)) (k : String) : Bool :=
  (yLookup kvs k).isSome

structure OpenAPISpecR where
  name : String
  description : Option String
  version : String
  info : List (String × YVal)
  paths : List (String × YVal)
  components : Option YVal
  source_file : String

/-- Construction of one `OpenAPISpec` from a parsed mapping: the document must
carry a `swagger` or `openapi` key and a `paths` key, else it is silently
skipped; a shape that the source's attribute accesses or the pydantic
`OpenAPISpec` field types reject raises, is caught, and likewise yields no
spec (and no error record). -/
def specOfDoc (kvs : List (String × YVal)) (stem fileRel : String) : Option OpenAPISpecR :=
  if (hasKey kvs "swagger" || hasKey kvs "openapi") && hasKey kvs "paths" then
    match (yLookup kvs "openapi").getD ((yLookup kvs "swagger").getD (.str "unknown")) with
    | .str v =>
      match (yLookup kvs "info").getD (.map []) with
      | .map info =>
        let nameO : Option String :=
          match yLookup info "title" with
          | none => some stem
          | some (.str t) => some t
          | some _ => none
        let descO : Option (Option String) :=
          match yLookup info "description" with
          | none => some none
          | some (.str d) => some (some d)
          | some .nullv => some none
          | some _ => none
        match nameO, descO, yLookup kvs "paths" with
        | some n, some d, some (.map ps) =>
          match yLookup kvs "components" with
          | none => some { name := n, description := d, version := v, info := info,
                           paths := ps, components := none, source_file := fileRel }
          | some (.map m) => some { name := n, description := d, version := v, info := info,
                                    paths := ps, components := some (.map m),
                                    source_file := fileRel }
          | some .nullv => some { name := n, description := d, version := v, info := info,
                                  paths := ps, components := none, source_file := fileRel }
          | some _ => none
        | _, _, _ => none
      | _ => none
    | _ => none
  else none

/-- Relative file paths: segment lists joined by `/` when rendered. -/
abbrev RPath := List String

def pathStr (p : RPath) : String := String.intercalate "/" p

def lastSeg (p : RPath) : String := (p.getLast?).getD ""

/-- A source tree: relative paths with their textual contents, listed in
the traversal order of the underlying filesystem walk. -/
abbrev FileTree := List (RPath × String)

structure ParseEnv where
  yamlLoad : String → Except String YVal
  jsonLoad : String → Except String YVal

/-- The nine glob patterns of `OpenAPIDetector.detect`, in source order;
`**/` matches any directory depth, so only the file name is constrained. -/
def openapiGlobNames : List String :=
  ["openapi.yaml", "openapi.yml", "openapi.json", "swagger.yaml", "swagger.yml",
   "swagger.json", "api-spec.yaml", "api-spec.yml", "api-spec.json"]

def yamlExts : List String := [".yaml", ".yml"]

/-- `OpenAPIDetector.detect`: for each glob pattern, every file in the tree
whose name matches (no directory exclusions apply), parsed by extension; parse
failures and disqualified documents are skipped with at most a log line. -/
def openapiDetect (env : ParseEnv) (files : FileTree) : List OpenAPISpecR :=
  (openapiGlobNames.map (fun pat =>
    (files.filter (fun f => lastSeg f.1 == pat)).filterMap (fun f =>
      let nm := lastSeg f.1
      let loadRes := if yamlExts.contains (String.mk (pySuffix nm.data))
                     then env.yamlLoad f.2 else env.jsonLoad f.2
      match loadRes with
      | .error _ => none
      | .ok (.map kvs) => specOfDoc kvs (String.mk (pyStem nm.data)) (pathStr f.1)
      | .ok _ => none))).flatten

/-! ### Walker and aggregator (`app/services/detectors/codebase_analyzer.py`) -/

def supportedExtensions : List String :=
  [".py", ".js", ".ts", ".java", ".go", ".rb", ".php", ".cs", ".proto",
   ".graphql", ".gql", ".yaml", ".yml", ".json"]

def denyDirs : List String := ["node_modules", "venv", ".git", ".idea", "__pycache__"]

def isHiddenSeg (s : String) : Bool := leadsWith (chars ".") s.data

/-- The walker's per-file admission test (`_collect_code_files`): no hidden or
denied directory segment on the path to the file, a supported extension, and no
`vendor`/`dist`/`build` segment anywhere in the file path. -/
def walkIncluded (p : RPath) : Bool :=
  !(p.dropLast.any (fun d => isHiddenSeg d || denyDirs.contains d)) &&
  supportedExtensions.contains (String.mk (pySuffix (lastSeg p).data)) &&
  !(p.contains "vendor" || p.contains "dist" || p.contains "build")

def collectCodeFiles (files : FileTree) : List RPath :=
  (files.filter (fun f => walkIncluded f.1)).map (fun f => f.1)

structure ErrEntry where
  file : Option String
  message : String
  deriving Repr, DecidableEq

inductive Api where
  | openapi (s : OpenAPISpecR)
  | rest (e : RESTEndpoint)
  | ws (w : WebSocketAPIR)
  | grpc (s : GRPCServiceR)
  | gql (g : GraphQLAPIR)

/-- The `stats` dictionary of `AnalysisResult` (all keys default to 0). -/
structure Stats where
  REST : Nat := 0
  WebSocket : Nat := 0
  gRPC : Nat := 0
  GraphQL : Nat := 0
  OpenAPI : Nat := 0
  total : Nat := 0
  deriving Repr, DecidableEq

def restExts : List String := [".py", ".js", ".ts", ".java", ".php", ".rb", ".cs"]
def wsExts : List String := [".py", ".js", ".ts"]
def gqlExts : List String := [".graphql", ".gql"]
def jsExts : List String := [".js", ".ts"]

/-- What one walked file contributes to the analysis. -/
structure FileAdds where
  rest : List RESTEndpoint := []
  ws : List WebSocketAPIR := []
  grpc : List GRPCServiceR := []
  gql : List GraphQLAPIR := []
  err : Option ErrEntry := none

/-- The per-file body of the analyzer loop: reading never fails
(`errors='ignore'`); an exception from a detector is caught, recorded as a
per-file error entry, and discards that file's contributions. -/
def processFile (f : RPath × String) : FileAdds :=
  let content := f.2.data
  let nm := lastSeg f.1
  let sfx := String.mk (pySuffix nm.data)
  let rel := pathStr f.1
  let stem := String.mk (pyStem nm.data)
  let restRes : Except String (List RESTEndpoint) :=
    if restExts.contains sfx then restDetect content rel else .ok []
  match restRes with
  | .error e => { err := some ⟨some rel, e⟩ }
  | .ok r =>
    let w := if wsExts.contains sfx then wsDetect content stem rel else []
    let g := if sfx == ".proto" then grpcDetect content rel else []
    let q := if gqlExts.contains sfx ||
                (jsExts.contains sfx &&
                 (containsSub content (chars "graphql") || containsSub content (chars "apollo")))
             then gqlDetect content stem rel else []
    { rest := r, ws := w, grpc := g, gql := q, err := none }

structure AnalysisResult where
  project_name : String
  source : String
  source_info : List (String × String)
  apis : List Api
  stats : Stats
  errors : List ErrEntry

/-- `CodebaseAnalyzer.analyze`: OpenAPI specs first, then the walked files'
REST, WebSocket, gRPC and GraphQL results in that order; per-type counts and
`total = len(result.apis)`; per-file errors accumulated without aborting. -/
def analyze (env : ParseEnv) (files : FileTree) (source : String)
    (projectName : Option String) (rootName rootPathStr : String) : AnalysisResult :=
  let specs := openapiDetect env files
  let adds := (files.filter (fun f => walkIncluded f.1)).map processFile
  let restL := (adds.map (fun a => a.rest)).flatten
  let wsL := (adds.map (fun a => a.ws)).flatten
  let grpcL := (adds.map (fun a => a.grpc)).flatten
  let gqlL := (adds.map (fun a => a.gql)).flatten
  let apis := specs.map Api.openapi ++ restL.map Api.rest ++ wsL.map Api.ws
              ++ grpcL.map Api.grpc ++ gqlL.map Api.gql
  { project_name := projectName.getD rootName
    source := source
    source_info := [("path", rootPathStr)]
    apis := apis
    stats := { REST := restL.length, WebSocket := wsL.length, gRPC := grpcL.length,
               GraphQL := gqlL.length, OpenAPI := specs.length, total := apis.length }
    errors := adds.filterMap (fun a => a.err) }

/-! ### Service layer (`app/services/detector_service.py::detect_from_github`)

The archive download (`github_service.download_repository_zip`, the only
retrieval primitive this code path invokes) is an oracle; every invocation of a
retrieval primitive is recorded in a trace of `RetrievalAction`s. -/

inductive RetrievalAction where
  | cloneStep
  | archiveStep
  deriving Repr, DecidableEq

structure ServiceEnv where
  parse : ParseEnv
  downloadRepoZip : String → Option String → Except String FileTree

/-- Generic split on a character (Python `str.split(sep)`, `"" ↦ [""]`). -/
def splitOnChar (sep : Char) (s : List Char) : List (List Char) :=
  let rec go : List Char → List Char → List (List Char)
    | [], acc => [acc.reverse]
    | c :: t, acc => if c = sep then acc.reverse :: go t [] else go t (c :: acc)
  go s []

/-- First index at which `pat` occurs in `s`. -/
def findSubIdx (s pat : List Char) : Option Nat :=
  ((List.range (s.length + 1)).filter (fun i => leadsWith pat (s.drop i))).head?

/-- `urlparse(url).path` for the scheme-and-host URLs the service receives. -/
def urlPath (url : String) : List Char :=
  let cs := url.data
  match findSubIdx cs (chars "://") with
  | none => cs
  | some i =>
    let rest := cs.drop (i + 3)
    rest.drop ((rest.takeWhile (· ≠ '/')).length)

/-- Python `str.strip('/')`. -/
def pyStripSlash (s : List Char) : List Char :=
  ((s.dropWhile (· = '/')).reverse.dropWhile (· = '/')).reverse

/-- `urlparse(repo_url).path.strip('/').split('/')`. -/
def urlPathParts (url : String) : List (List Char) :=
  splitOnChar '/' (pyStripSlash (urlPath url))

def invalidUrlMsg (url : String) : String := "Invalid GitHub repository URL: " ++ url

/-- The `try` block of `detect_from_github`: reject references with fewer than
two path segments before any retrieval; otherwise download the archive (the
sole retrieval step), analyze, and attach the repository `source_info`. -/
def detectFromGithubBody (env : ServiceEnv) (repoUrl : String) (branch : Option String) :
    Except String AnalysisResult × List RetrievalAction :=
  match urlPathParts repoUrl with
  | o :: r :: _ =>
    let repoName := String.mk (removeAll (chars ".git") r)
    let projectName := String.mk o ++ "/" ++ repoName
    match env.downloadRepoZip repoUrl branch with
    | .error e => (.error e, [.archiveStep])
    | .ok files =>
      let res := analyze env.parse files "github" (some projectName) "" ""
      (.ok { res with source_info :=
               [("repo_url", repoUrl), ("branch", branch.getD "default branch"),
                ("owner", String.mk o), ("repo", repoName)] },
       [.archiveStep])
  | _ => (.error (invalidUrlMsg repoUrl), [])

/-- The `except` block's best-effort project name (no `.git` stripping here). -/
def fallbackProjectName (repoUrl : String) : String :=
  match urlPathParts repoUrl with
  | o :: r :: _ => String.mk o ++ "/" ++ String.mk r
  | _ => "unknown-repo"

/-- The `AnalysisResult` the `except` block returns: empty `apis`, default
stats, the caught exception's message as the sole error entry. -/
def errorResult (repoUrl : String) (branch : Option String) (e : String) : AnalysisResult :=
  { project_name := fallbackProjectName repoUrl, source := "github",
    source_info := [("repo_url", repoUrl), ("branch", branch.getD "default branch")],
    apis := [], stats := {}, errors := [⟨none, e⟩] }

/-- `detect_from_github` with its `try/except`: a total function — every
exception from the body is converted into a returned `AnalysisResult`. -/
def detectFromGithub (env : ServiceEnv) (repoUrl : String) (branch : Option String) :
    AnalysisResult × List RetrievalAction :=
  match detectFromGithubBody env repoUrl branch with
  | (.ok res, tr) => (res, tr)
  | (.error e, tr) => (errorResult repoUrl branch e, tr)

/-! ### Provider layer (`app/services/git_providers/base.py`, `generic.py`,
`github.py`) -/

/-- `GitProvider.get_default_branch_download`. -/
def defaultBranchCandidates : List String := ["main", "master", "develop", "trunk", "default"]

/-- The candidate loop of `GenericGitProvider.download_zip` for an absent
branch: try each candidate via `download_zip_from_branch` (the oracle), return
the first success, remember the last error; also returns the list of branches
attempted, in order. -/
def genericDownloadZipAux (tryBranch : String → Except String String) :
    List String → Option String → Except String String × List String
  | [], lastErr =>
    (.error ("All default branches failed, last error: " ++ lastErr.getD "None"), [])
  | b :: rest, _ =>
    match tryBranch b with
    | .ok p => (.ok p, [b])
    | .error e =>
      let r := genericDownloadZipAux tryBranch rest (some e)
      (r.1, b :: r.2)

/-- `GenericGitProvider.download_zip`: an explicit branch is downloaded
directly; otherwise the fixed candidate list is tried in order. -/
def genericDownloadZip (tryBranch : String → Except String String) (branch : Option String) :
    Except String String × List String :=
  match branch with
  | some b => (tryBranch b, [b])
  | none => genericDownloadZipAux tryBranch defaultBranchCandidates none

/-- Outcome of the one metadata-API HTTP request of
`GitHubProvider.get_default_branch`: a JSON body whose `default_branch` key may
be absent, an HTTP status error (from `raise_for_status`), or any other
exception (connection failure, decode error, …). -/
inductive HttpOutcome where
  | success (defaultBranch : Option String)
  | statusError (code : Nat)
  | otherError
  deriving Repr, DecidableEq

/-- `GitHubProvider.get_default_branch` (identical control flow in
`github_service.get_repo_default_branch`): 404 and non-404 HTTP status errors
both raise `ValueError`; only the catch-all branch falls back to `"main"`. -/
def githubGetDefaultBranch (resp : HttpOutcome) : Except String String :=
  match resp with
  | .success db => .ok (db.getD "main")
  | .statusError code =>
    if code = 404 then .error "Repository not found"
    else .error "Failed to get repository info"
  | .otherError => .ok "main"

/-! ### Concrete instances the theorems evaluate on -/

/-- Parse oracles that fail on every input. -/
def envParseFail : ParseEnv :=
  ⟨fun _ => .error "yaml parse error", fun _ => .error "json parse error"⟩

/-- Service environment whose archive download always fails. -/
def envFail : ServiceEnv := ⟨envParseFail, fun _ _ => .error "download failed"⟩

/-- A tree holding an unparsable `openapi.yaml` and one ordinary Python file. -/
def tree4 : FileTree :=
  [(["openapi.yaml"], "::: not yaml :::"),
   (["app.py"], "@blueprint.get(\"/items\")\n")]

/-- A parsed OpenAPI 3 document (`openapi`/`info.title`/`paths`). -/
def doc10y : YVal :=
  .map [("openapi", .str "3.0.0"), ("info", .map [("title", .str "Pets")]), ("paths", .map [])]

/-- A parsed Swagger 2 document. -/
def doc10j : YVal :=
  .map [("swagger", .str "2.0"), ("info", .map [("title", .str "Admin")]), ("paths", .map [])]

/-- Parse oracles recognising the two marker contents `"Y1"` and `"J1"`. -/
def env10 : ParseEnv :=
  ⟨fun s => if s = "Y1" then .ok doc10y else .error "bad yaml",
   fun s => if s = "J1" then .ok doc10j else .error "bad json"⟩

/-- Valid OpenAPI documents placed under `node_modules/` and a hidden
directory, alongside one regular source file. -/
def tree10 : FileTree :=
  [(["node_modules", "openapi.yaml"], "Y1"),
   ([".hidden", "swagger.json"], "J1"),
   (["src", "api.py"], "@blueprint.get(\"/a\")\n")]

/-- A `download_zip_from_branch` oracle failing on every branch. -/
def tbAllFail : String → Except String String := fun b => .error ("no branch " ++ b)

/-- The C6 proto content
`service Greeter { rpc SayHello (HelloRequest) returns (HelloResponse); }`. -/
def c6content : List Char :=
  chars "service Greeter \x7b rpc SayHello (HelloRequest) returns (HelloResponse); \x7d"

/-- A GET decorator on `app` (matched by the FastAPI-style and the
Express-style pattern alike). -/
def c7appContent : List Char := chars "x = 1\n@app.get(\"/items/\x7bid\x7d\")\n"

/-- The same GET decorator on `blueprint` (matched only by the FastAPI-style
pattern). -/
def c7bpContent : List Char := chars "x = 1\n@blueprint.get(\"/items/\x7bid\x7d\")\n"

/-- The endpoint record both matches of `c7appContent` produce. -/
def ep7 : RESTEndpoint :=
  { name := "GET /items/\x7bid\x7d", path := "/items/\x7bid\x7d", method := .GET,
    source_file := "f.py", source_line := 2 }

/-! ## Helper lemma -/

/-- In any analyzer output, `stats.total` is the length of `apis` (the source
sets `result.stats["total"] = len(result.apis)` after the final extends). -/
theorem analyze_total_eq (env : ParseEnv) (files : FileTree) (source : String)
    (projectName : Option String) (rootName rootPathStr : String) :
    (analyze env files source projectName rootName rootPathStr).stats.total =
      (analyze env files source projectName rootName rootPathStr).apis.length := rfl

/-! ## Claims -/

/-- C1 (counterexample).  The claim: retrieval first attempts a clone, falls
back to an archive download, and a terminal failure carries both the clone
error and the archive error.  On a request whose archive download fails, the
recorded retrieval trace is `[archiveStep]` — no clone attempt precedes (or
follows) the archive attempt — and the returned failure carries exactly one
error message, the archive one. -/
theorem c1_counterexample :
    (detectFromGithub envFail "https://github.com/o/r" none).2 =
      [RetrievalAction.archiveStep] ∧
    (detectFromGithub envFail "https://github.com/o/r" none).1.errors =
      [⟨none, "download failed"⟩] := ⟨rfl, rfl⟩

/-- C1 (amended).  For every repository-reference analysis request the service
performs no clone attempt: the only retrieval step ever taken is the archive
download, and when that download fails the returned inventory carries the
archive error alone. -/
theorem c1_archive_only (env : ServiceEnv) (url : String) (b : Option String) :
    RetrievalAction.cloneStep ∉ (detectFromGithub env url b).2 ∧
    (∀ o r rest e, urlPathParts url = o :: r :: rest →
      env.downloadRepoZip url b = .error e →
      detectFromGithub env url b = (errorResult url b e, [.archiveStep])) := by
  constructor
  · unfold detectFromGithub detectFromGithubBody
    rcases hp : urlPathParts url with _ | ⟨o, _ | ⟨r, rest⟩⟩ <;>
      rcases hd : env.downloadRepoZip url b with e | files <;>
      simp [hp, hd]
  · intro o r rest e hp hd
    unfold detectFromGithub detectFromGithubBody
    rw [hp, hd]

/-- C1 (witness): the amended statement at the all-failing environment. -/
theorem c1_archive_only_witness :
    detectFromGithub envFail "https://github.com/o/r" none =
      (errorResult "https://github.com/o/r" none "download failed",
       [RetrievalAction.archiveStep]) :=
  (c1_archive_only envFail "https://github.com/o/r" none).2
    (chars "o") (chars "r") [] "download failed" rfl rfl

/-- C2 (counterexample).  The claim: an invalid reference (URL path with fewer
than two segments) is raised past the service boundary.  In fact
`detect_from_github` catches that `ValueError` like every other exception: at
the one-segment URL below it returns an inventory (project name
`unknown-repo`) whose errors list carries the invalid-URL message, with an
empty retrieval trace (the rejection does happen before any I/O, but it is
converted, not raised). -/
theorem c2_counterexample :
    detectFromGithub envFail "https://github.com/single" none =
      (errorResult "https://github.com/single" none
        (invalidUrlMsg "https://github.com/single"), []) ∧
    (errorResult "https://github.com/single" none
        (invalidUrlMsg "https://github.com/single")).errors ≠ [] := by
  refine ⟨rfl, ?_⟩
  intro h
  exact List.cons_ne_nil _ _ h

/-- C2 (amended).  The analyze operation always returns an
`AnalysisInventory` and never raises past the service boundary — including for
an invalid reference (fewer than two path segments), which is caught before
any retrieval I/O and converted into a returned result whose errors list
explains it; every exception of the service body is likewise converted into a
returned result carrying its message. -/
theorem c2_always_returns :
    (∀ env url b, (urlPathParts url).length < 2 →
      detectFromGithub env url b = (errorResult url b (invalidUrlMsg url), [])) ∧
    (∀ env url b e, (detectFromGithubBody env url b).1 = .error e →
      (detectFromGithub env url b).1 = errorResult url b e) := by
  constructor
  · intro env url b hlen
    unfold detectFromGithub detectFromGithubBody
    rcases hp : urlPathParts url with _ | ⟨o, _ | ⟨r, rest⟩⟩
    · rfl
    · rfl
    · rw [hp] at hlen
      simp only [List.length_cons] at hlen
      omega
  · intro env url b e h
    unfold detectFromGithub
    rcases hb : detectFromGithubBody env url b with ⟨res, tr⟩
    rw [hb] at h
    cases res with
    | ok r => exact absurd h (by simp)
    | error e' =>
      simp at h
      subst h
      rfl

/-- C2 (witness): both parts at concrete inputs. -/
theorem c2_always_returns_witness :
    detectFromGithub envFail "https://github.com/single" none =
      (errorResult "https://github.com/single" none
        (invalidUrlMsg "https://github.com/single"), []) ∧
    (detectFromGithub envFail "https://github.com/o/r" none).1 =
      errorResult "https://github.com/o/r" none "download failed" :=
  ⟨c2_always_returns.1 envFail "https://github.com/single" none (by decide),
   c2_always_returns.2 envFail "https://github.com/o/r" none "download failed" rfl⟩

/-- C3.  `GenericGitProvider.download_zip` without an explicit branch: when
every candidate fails, the branches attempted are exactly
`main, master, develop, trunk, default` in that order, and the terminal error
surfaces the last candidate's (i.e. `default`'s) error. -/
theorem c3_branch_fallback_order (tryBranch : String → Except String String)
    (e : String → String)
    (h : ∀ b ∈ defaultBranchCandidates, tryBranch b = .error (e b)) :
    genericDownloadZip tryBranch none =
      (.error ("All default branches failed, last error: " ++ e "default"),
       ["main", "master", "develop", "trunk", "default"]) := by
  have h1 := h "main" (by simp [defaultBranchCandidates])
  have h2 := h "master" (by simp [defaultBranchCandidates])
  have h3 := h "develop" (by simp [defaultBranchCandidates])
  have h4 := h "trunk" (by simp [defaultBranchCandidates])
  have h5 := h "default" (by simp [defaultBranchCandidates])
  simp [genericDownloadZip, defaultBranchCandidates, genericDownloadZipAux,
        h1, h2, h3, h4, h5]

/-- C3 (witness): the all-failing branch oracle. -/
theorem c3_branch_fallback_order_witness :
    genericDownloadZip tbAllFail none =
      (.error ("All default branches failed, last error: no branch default"),
       ["main", "master", "develop", "trunk", "default"]) :=
  c3_branch_fallback_order tbAllFail (fun b => "no branch " ++ b)
    (by intro b _; rfl)

/-- C4 (counterexample).  The claim: an unparsable `openapi.yaml` produces a
per-file `ParseFailure` error entry in the returned inventory.  On `tree4`,
whose `openapi.yaml` fails the YAML oracle, the analyzer's error list is empty:
the OpenAPI detector catches the parse exception and only logs it, and the
walked-file loop runs no detector on `.yaml` files, so no error entry is ever
recorded. -/
theorem c4_counterexample :
    envParseFail.yamlLoad "::: not yaml :::" = .error "yaml parse error" ∧
    (analyze envParseFail tree4 "zip" (some "proj") "" "").errors = [] := ⟨rfl, rfl⟩

/-- C4 (amended).  An unparsable `openapi.yaml` is skipped silently: it
contributes no entry to `apis` and no error entry (the failure is only
logged), while the rest of the analysis completes normally — here the
sibling `app.py` still yields its REST endpoint, and the stats count it. -/
theorem c4_silent_skip :
    analyze envParseFail tree4 "zip" (some "proj") "" "" =
      { project_name := "proj", source := "zip", source_info := [("path", "")],
        apis := [Api.rest { name := "GET /items", path := "/items", method := .GET,
                            source_file := "app.py", source_line := 1 }],
        stats := { REST := 1, WebSocket := 0, gRPC := 0, GraphQL := 0,
                   OpenAPI := 0, total := 1 },
        errors := [] } := rfl

/-- C5 (counterexample).  The claim: any default-branch-resolution failure
other than a not-found signal — e.g. a non-404 HTTP error from the metadata
API — makes `get_default_branch` return `"main"`.  At an HTTP 500 response the
function raises a `ValueError` instead. -/
theorem c5_counterexample :
    githubGetDefaultBranch (.statusError 500) = .error "Failed to get repository info" ∧
    githubGetDefaultBranch (.statusError 500) ≠ .ok "main" := by
  refine ⟨rfl, ?_⟩
  intro h
  exact Except.noConfusion h

/-- C5 (amended).  `get_default_branch` falls back to `"main"` only on
failures that are not HTTP status errors (connection failures, decode errors,
…); HTTP status errors — the 404 not-found signal and non-404 codes alike —
are raised to the caller; a successful response yields its `default_branch`
field, defaulting to `"main"` when absent. -/
theorem c5_fallback_scope :
    (∀ code, code ≠ 404 →
      githubGetDefaultBranch (.statusError code) = .error "Failed to get repository info") ∧
    githubGetDefaultBranch (.statusError 404) = .error "Repository not found" ∧
    githubGetDefaultBranch .otherError = .ok "main" ∧
    (∀ db, githubGetDefaultBranch (.success db) = .ok (db.getD "main")) := by
  refine ⟨?_, rfl, rfl, fun _ => rfl⟩
  intro code hc
  simp [githubGetDefaultBranch, hc]

/-- C5 (witness): the amended statement at HTTP code 500. -/
theorem c5_fallback_scope_witness :
    githubGetDefaultBranch (.statusError 500) = .error "Failed to get repository info" :=
  c5_fallback_scope.1 500 (by decide)

/-- C6.  On
`service Greeter { rpc SayHello (HelloRequest) returns (HelloResponse); }`
the gRPC detector yields exactly one service `Greeter` with exactly one method
`SayHello`, input `HelloRequest`, output `HelloResponse`, streaming `false`. -/
theorem c6_grpc_greeter :
    grpcDetect c6content "greeter.proto" =
      [{ name := "Greeter", service_name := "Greeter",
         methods := [{ name := "SayHello", input_type := "HelloRequest",
                       output_type := "HelloResponse", streaming := false }],
         message_types := [], source_file := "greeter.proto", source_line := 1 }] := rfl

/-- C7 (counterexample).  The claim: content with a single GET decorator for
`/items/{id}` yields exactly one endpoint.  For the decorator `@app.get`, the
call-style (Express) pattern also matches inside the decorator text, so the
REST detector emits two identical endpoints, not one. -/
theorem c7_counterexample :
    restDetect c7appContent "f.py" = .ok [ep7, ep7] ∧
    (restDetect c7appContent "f.py").map List.length = .ok 2 := ⟨rfl, rfl⟩

/-- C7 (amended).  A single method-and-path GET decorator yields endpoints
with method `GET`, path `/items/{id}` and the 1-indexed line computed from the
newline count before the match — one endpoint per pattern that matches it:
exactly one for a receiver only the decorator-style pattern matches
(`@blueprint.get`), and two identical ones for `@app.get`/`@router.get`,
which the call-style pattern matches as well. -/
theorem c7_line_and_method :
    restDetect c7bpContent "f.py" =
      .ok [{ name := "GET /items/\x7bid\x7d", path := "/items/\x7bid\x7d",
             method := .GET, source_file := "f.py", source_line := 2 }] ∧
    restDetect c7appContent "f.py" = .ok [ep7, ep7] := ⟨rfl, rfl⟩

/-- C8.  A Flask-style route match without an explicit method list emits
exactly one endpoint, with method `GET`; an Express-style route with the `all`
verb emits its endpoint with method `GET` (the raw `ALL` only survives in the
display name). -/
theorem c8_default_get :
    (∀ content fileRel st path,
      flaskEndpointsOfMatch content fileRel st path none =
        .ok [{ name := String.mk (chars "GET " ++ path), path := String.mk path,
               method := .GET, source_file := fileRel, source_line := lineOf content st }]) ∧
    (∀ content fileRel st path,
      expressEndpoint content fileRel st (chars "all", path) =
        .ok { name := String.mk (chars "ALL " ++ path), path := String.mk path,
              method := .GET, source_file := fileRel, source_line := lineOf content st }) :=
  ⟨fun _ _ _ _ => rfl, fun _ _ _ _ => rfl⟩

/-- C9.  In every `AnalysisResult` the system returns — whether produced by a
normal analysis run or by the error path of `detect_from_github` —
`stats.total` equals the number of entries of `apis`. -/
theorem c9_total_invariant :
    (∀ env files src pn rn rp,
      (analyze env files src pn rn rp).stats.total =
        (analyze env files src pn rn rp).apis.length) ∧
    (∀ env url b,
      ((detectFromGithub env url b).1).stats.total =
        ((detectFromGithub env url b).1).apis.length) := by
  refine ⟨fun env files src pn rn rp => analyze_total_eq env files src pn rn rp, ?_⟩
  intro env url b
  unfold detectFromGithub detectFromGithubBody
  rcases hp : urlPathParts url with _ | ⟨o, _ | ⟨r, rest⟩⟩ <;>
    rcases hd : env.downloadRepoZip url b with e | files <;>
    simp [hp, hd] <;>
    rfl

/-- C10.  The OpenAPI glob is applied to the whole tree without the walker's
exclusion rules: in `tree10` the valid documents under `node_modules/` and
under a hidden directory are both detected and appear in `apis` (in glob
pattern order, before the per-line recognizers' results), while the walker
hands the per-line recognizers only `src/api.py`. -/
theorem c10_glob_ignores_exclusions :
    collectCodeFiles tree10 = [["src", "api.py"]] ∧
    (analyze env10 tree10 "zip" (some "p") "" "").apis =
      [Api.openapi { name := "Pets", description := none, version := "3.0.0",
                     info := [("title", .str "Pets")], paths := [], components := none,
                     source_file := "node_modules/openapi.yaml" },
       Api.openapi { name := "Admin", description := none, version := "2.0",
                     info := [("title", .str "Admin")], paths := [], components := none,
                     source_file := ".hidden/swagger.json" },
       Api.rest { name := "GET /a", path := "/a", method := .GET,
                  source_file := "src/api.py", source_line := 1 }] ∧
    (analyze env10 tree10 "zip" (some "p") "" "").errors = [] := ⟨rfl, rfl, rfl⟩

end AD
